import Mathlib

/-!
Shallow embedding of the udstunnel core (consts.rs, types.rs, server.rs,
relay.rs, event.rs) and proofs about its specified behaviour.

Machine bytes are modelled as `Nat` values below 256; Rust strings are
modelled by their UTF-8 byte lists; a Rust panic is modelled as `none`
in an `Option` result.
-/

set_option maxRecDepth 16384

namespace UdsTunnel

/-! ## Constants (src/tunnel/consts.rs) -/

/-- Embedding of `HANDSHAKE_V1 = b"\x5AMGB\xA5\x01\x00"` (consts.rs line 6):
the bytes 5A, then ASCII `M` `G` `B`, then A5 01 00. -/
def HANDSHAKE_V1 : List Nat := [0x5A, 0x4D, 0x47, 0x42, 0xA5, 0x01, 0x00]

/-- Embedding of `TICKET_LENGTH` (consts.rs). -/
def TICKET_LENGTH : Nat := 48

/-- Embedding of `SECRET_LENGTH` (consts.rs). -/
def SECRET_LENGTH : Nat := 64

/-- Embedding of `COMMAND_LENGTH` (consts.rs). -/
def COMMAND_LENGTH : Nat := 4

/-- Bytes of `COMMAND_OPEN = "OPEN"`. -/
def COMMAND_OPEN : List Nat := [0x4F, 0x50, 0x45, 0x4E]

/-- Bytes of `COMMAND_TEST = "TEST"`. -/
def COMMAND_TEST : List Nat := [0x54, 0x45, 0x53, 0x54]

/-- Bytes of `COMMAND_STATS = "STAT"`. -/
def COMMAND_STATS : List Nat := [0x53, 0x54, 0x41, 0x54]

/-- Bytes of `COMMAND_INFO = "INFO"`. -/
def COMMAND_INFO : List Nat := [0x49, 0x4E, 0x46, 0x4F]

/-- Embedding of `RESPONSE_ERROR_TIMEOUT` (consts.rs). -/
def RESPONSE_ERROR_TIMEOUT : String := "TIMEOUT"

/-- Embedding of `RESPONSE_ERROR_HANDSHAKE` (consts.rs). -/
def RESPONSE_ERROR_HANDSHAKE : String := "ERROR_HANDSHAKE"

/-- Embedding of `RESPONSE_ERROR_COMMAND` (consts.rs). -/
def RESPONSE_ERROR_COMMAND : String := "ERROR_COMMAND"

/-- Embedding of `RESPONSE_FORBIDDEN` (consts.rs). -/
def RESPONSE_FORBIDDEN : String := "FORBIDDEN"

/-- Embedding of `RESPONSE_ERROR_CONNECT` (consts.rs). -/
def RESPONSE_ERROR_CONNECT : String := "ERROR_CONNECT"

/-- Embedding of `RESPONSE_OK` (consts.rs). -/
def RESPONSE_OK : String := "OK"

/-! ## UTF-8 (Rust `String::from_utf8` / `str` semantics)

`types.rs` converts raw bytes to a Rust `String` (`from_bytes`, line 63) and
then works with byte indices and `chars()` on the resulting `str`.  We model
the standard UTF-8 validation/decoding: `utf8Decode` returns the list of
Unicode scalar values, or `none` exactly when Rust's `String::from_utf8`
would return an `Err`. -/

/-- Whether a byte is a UTF-8 continuation byte (`0x80..=0xBF`). -/
def isCont (b : Nat) : Bool := 0x80 ≤ b && b < 0xC0

/-- Strict UTF-8 decoder: the accepted byte sequences are exactly those
Rust's `String::from_utf8` accepts (shortest forms only, no surrogates,
at most U+10FFFF). -/
def utf8Decode : List Nat → Option (List Nat)
  | [] => some []
  | b :: rest =>
    if b < 0x80 then
      (utf8Decode rest).map (fun cs => b :: cs)
    else if b < 0xC2 then
      none
    else if b < 0xE0 then
      match rest with
      | b1 :: rest2 =>
        if isCont b1 then
          (utf8Decode rest2).map (fun cs => ((b - 0xC0) * 0x40 + (b1 - 0x80)) :: cs)
        else none
      | [] => none
    else if b < 0xF0 then
      match rest with
      | b1 :: b2 :: rest2 =>
        if (if b = 0xE0 then decide (0xA0 ≤ b1) && decide (b1 < 0xC0)
            else if b = 0xED then decide (0x80 ≤ b1) && decide (b1 < 0xA0)
            else isCont b1) && isCont b2 then
          (utf8Decode rest2).map
            (fun cs => ((b - 0xE0) * 0x1000 + (b1 - 0x80) * 0x40 + (b2 - 0x80)) :: cs)
        else none
      | _ => none
    else if b < 0xF5 then
      match rest with
      | b1 :: b2 :: b3 :: rest2 =>
        if (if b = 0xF0 then decide (0x90 ≤ b1) && decide (b1 < 0xC0)
            else if b = 0xF4 then decide (0x80 ≤ b1) && decide (b1 < 0x90)
            else isCont b1) && isCont b2 && isCont b3 then
          (utf8Decode rest2).map
            (fun cs =>
              ((b - 0xF0) * 0x40000 + (b1 - 0x80) * 0x1000 +
                (b2 - 0x80) * 0x40 + (b3 - 0x80)) :: cs)
        else none
      | _ => none
    else none

/-- Rust `str::is_char_boundary(i)` on the byte list of a string:
true at 0 and at the length; inside the string, true iff the byte at `i`
is not a continuation byte; false past the end. -/
def isCharBoundary (s : List Nat) (i : Nat) : Bool :=
  if i = 0 then true
  else if i = s.length then true
  else
    match s[i]? with
    | some b => decide (b < 0x80) || decide (0xC0 ≤ b)
    | none => false

/-- The boundary test `isCharBoundary (tag ++ rest) 4` reduced to the head
of `rest` (for a 4-byte tag): true at end-of-string, else true iff the
first payload byte is not a continuation byte. -/
def headBoundary (rest : List Nat) : Bool :=
  match rest with
  | [] => true
  | b :: _ => decide (b < 0x80) || decide (0xC0 ≤ b)

/-! ## Command parsing (src/tunnel/types.rs) -/

/-- Embedding of `enum Command` (types.rs lines 7..12); payloads carry the
UTF-8 bytes of the Rust `String`. -/
inductive Command where
  | Open (ticket : List Nat)
  | Test
  | Stats (secret : List Nat)
  | Unknown
deriving DecidableEq

/-- Rust `char::is_ascii_alphanumeric` on a Unicode scalar value. -/
def isAsciiAlnum (c : Nat) : Bool :=
  (0x30 ≤ c && c ≤ 0x39) || (0x41 ≤ c && c ≤ 0x5A) || (0x61 ≤ c && c ≤ 0x7A)

/-- The match on `&s[..COMMAND_LENGTH]` of `Command::from_str` (types.rs
lines 22..57), after the tag slice and the payload (`s.get(4..)`) have been
split off.  The `chars()` tests of the source are modelled by decoding the
payload bytes (which always succeeds on the byte list of a genuine `str`).
The arm bodies and the error strings follow the source line by line. -/
def parseAfterTag (tag rest : List Nat) : Option (Except String Command) :=
    if tag = COMMAND_OPEN then
      if rest.length = TICKET_LENGTH then
        match utf8Decode rest with
        | some cs =>
          if cs.all isAsciiAlnum then some (Except.ok (Command.Open rest))
          else some (Except.error "Invalid ticket, not alphanumeric")
        | none => some (Except.error "Invalid ticket, not alphanumeric")
      else some (Except.error "Invalid ticket length")
    else if tag = COMMAND_TEST then some (Except.ok Command.Test)
    else if tag = COMMAND_STATS ∨ tag = COMMAND_INFO then
      if rest.length = SECRET_LENGTH then
        match utf8Decode rest with
        | some cs =>
          if cs.all isAsciiAlnum then some (Except.ok (Command.Stats rest))
          else some (Except.error "Invalid secret, not alphanumeric")
        | none => some (Except.error "Invalid secret, not alphanumeric")
      else some (Except.error "Invalid secret length")
    else some (Except.ok Command.Unknown)

/-- Embedding of `Command::from_str` (types.rs lines 17..58) on the UTF-8
bytes of the input string: the short-input guard (line 18), then the tag
slice `&s[..COMMAND_LENGTH]` — which PANICS (`none`) when byte index 4 is
inside a multi-byte character — then the match of `parseAfterTag`.  The
outer `Option` models panics; the inner `Except` is the source's
`Result<Command, &'static str>`. -/
def from_str (s : List Nat) : Option (Except String Command) :=
  if s.length < COMMAND_LENGTH then some (Except.error "Command too short")
  else if !(isCharBoundary s COMMAND_LENGTH) then none
  else parseAfterTag (s.take COMMAND_LENGTH) (s.drop COMMAND_LENGTH)

/-- Embedding of `Command::from_bytes` (types.rs lines 62..65):
`String::from_utf8(bytes.to_vec()).unwrap()` panics (`none`) on invalid
UTF-8; otherwise parsing proceeds as `from_str` on the same bytes. -/
def from_bytes (bytes : List Nat) : Option (Except String Command) :=
  match utf8Decode bytes with
  | some _ => from_str bytes
  | none => none

/-! ## Handshake step (src/tunnel/server.rs, `Connection::process` lines 80..117)

The server allocates `vec![0u8; HANDSHAKE_V1.len()]`, wraps
`stream.read_exact(&mut buf)` in `timeout(handshake_timeout, ...)` and maps
deadline expiry to a `TimedOut` I/O error.  It then branches on
`handshake.is_err() || buf != HANDSHAKE_V1`, answering `TIMEOUT` whenever
`handshake.is_err()` and `ERROR_HANDSHAKE` only when the read succeeded but
the bytes differ. -/

/-- Length of the handshake read buffer, `vec![0u8; consts::HANDSHAKE_V1.len()]`
(server.rs line 80): `read_exact` reads exactly this many bytes. -/
def handshake_buf_len : Nat := HANDSHAKE_V1.length

/-- Outcome of the timeout-wrapped `read_exact` of the handshake:
deadline expiry, some other I/O read error within the deadline, or a
successful read filling the buffer with the given bytes. -/
inductive ReadOutcome where
  | timedOut
  | readErr
  | ok (bytes : List Nat)
deriving DecidableEq

/-- Action the server takes after the handshake read: write a response
token and close, or proceed to the TLS upgrade. -/
inductive HandshakeResult where
  | respond (resp : String)
  | proceed
deriving DecidableEq

/-- Embedding of the handshake branch of `Connection::process`
(server.rs lines 83..117). -/
def handshakeStep : ReadOutcome → HandshakeResult
  | ReadOutcome.timedOut => HandshakeResult.respond RESPONSE_ERROR_TIMEOUT
  | ReadOutcome.readErr => HandshakeResult.respond RESPONSE_ERROR_TIMEOUT
  | ReadOutcome.ok bytes =>
    if bytes ≠ HANDSHAKE_V1 then HandshakeResult.respond RESPONSE_ERROR_HANDSHAKE
    else HandshakeResult.proceed

/-! ## Stats command branch (src/tunnel/server.rs, `Connection::process`
lines 179..215)

For `Command::Stats(secret)` the server computes the peer ip, then:
`if !allow.is_empty() && (!allow.contains(&ip) || secret != config.secret)`
it writes `FORBIDDEN`; the code then unconditionally continues, formats
`"{concurrent};{total};{sent};{recv}"` and writes it, then shuts down.
The model returns the list of strings written, in order. -/

/-- Snapshot of the four shared counters read by the stats branch
(stats.rs getters, in the order used by server.rs lines 199..205). -/
structure StatsSnapshot where
  concurrent : Nat
  total : Nat
  sent : Nat
  recv : Nat
deriving DecidableEq

/-- The ASCII stats line `format!("{};{};{};{}", concurrent, total, sent, recv)`
(server.rs lines 199..205). -/
def statsLine (st : StatsSnapshot) : String :=
  toString st.concurrent ++ ";" ++ toString st.total ++ ";" ++
    toString st.sent ++ ";" ++ toString st.recv

/-- Embedding of the `Command::Stats` branch (server.rs lines 179..215):
the sequence of writes performed on the stream before shutdown.  `allow`
is `config.allow`, `cfgSecret` the bytes of `config.secret`, `ip` the
peer-ip string, `secret` the bytes of the supplied secret. -/
def processStats (allow : List String) (cfgSecret : List Nat) (ip : String)
    (secret : List Nat) (st : StatsSnapshot) : List String :=
  let forbidden :=
    if allow ≠ [] ∧ (ip ∉ allow ∨ secret ≠ cfgSecret) then [RESPONSE_FORBIDDEN]
    else []
  forbidden ++ [statsLine st]

/-! ## Relay dispatch on the authorization reply
(src/tunnel/relay.rs, `RelayConnection::run` lines 81..120 and
`execute_command` lines 290..306) -/

/-- Rust `str::starts_with('#')`: whether the first character is `#`. -/
def startsWithHash (s : String) : Bool :=
  match s.data with
  | '#' :: _ => true
  | _ => false

/-- Rust `str::trim_start_matches('#')` on a char list: removes every
leading `#`. -/
def trimLeadingHashes : List Char → List Char
  | '#' :: rest => trimLeadingHashes rest
  | s => s

/-- Embedding of `RelayConnection::execute_command` (relay.rs lines
290..306): strips leading `#`, then matches the directive; both the
`"close"` arm and the catch-all arm return `None`. -/
def execute_command (command : String) : Option String :=
  match String.mk (trimLeadingHashes command.toList) with
  | "close" => none
  | _ => none

/-- Next action of `RelayConnection::run` once the authorization reply is
in hand (relay.rs lines 81..120): write a directive payload and close, or
attempt `TcpStream::connect` on `format!("{}:{}", host, port)`. -/
inductive RelayAction where
  | writeAndClose (payload : String)
  | connectBackend (dst : String)
deriving DecidableEq

/-- Embedding of the dispatch on `uds_response.host` (relay.rs lines
81..120): when the host starts with `#` and `execute_command` returns a
payload, write it and close; otherwise fall through to the backend
connect on `host:port`. -/
def relayDispatch (host : String) (port : Nat) : RelayAction :=
  if startsWithHash host then
    match execute_command host with
    | some response => RelayAction.writeAndClose response
    | none => RelayAction.connectBackend (host ++ ":" ++ toString port)
  else RelayAction.connectBackend (host ++ ":" ++ toString port)

/-! ## Relay pump data path (src/tunnel/relay.rs, the two pump tasks,
lines 141..183 and 191..232)

Each pump allocates `let mut buf = vec![0; 1024];` once and loops on
`read_buf(&mut buf)`.  Tokio's `read_buf` on a `Vec<u8>` appends the read
bytes at the vector's current length and returns the count `n`; the vector
is never cleared between iterations.  On `Ok(n)` with `n > 0` the pump adds
`n` to the counters and calls `write_all(&buf[..n])` — the first `n` bytes
of the grown vector. -/

/-- State of one pump: the reused vector, the chunks written so far to the
destination half, and the total byte count added to the counters. -/
structure PumpState where
  buf : List Nat
  written : List (List Nat)
  counted : Nat
deriving DecidableEq

/-- Initial pump state: `vec![0; 1024]` (relay.rs lines 142 and 192). -/
def pumpInit : PumpState :=
  { buf := List.replicate 1024 0, written := [], counted := 0 }

/-- One `Ok(n)` iteration of the pump loop with `n > 0` and a successful
write: `read_buf` appends `chunk` to the vector and returns
`n = chunk.length`; the counters gain `n`; `write_all(&buf[..n])` sends the
first `n` bytes of the appended-to vector. -/
def pumpStep (st : PumpState) (chunk : List Nat) : PumpState :=
  let buf2 := st.buf ++ chunk
  let n := chunk.length
  { buf := buf2, written := st.written ++ [buf2.take n], counted := st.counted + n }

/-- The pump run over a sequence of successfully read chunks. -/
def pumpRun (chunks : List (List Nat)) : PumpState :=
  chunks.foldl pumpStep pumpInit

/-! ## Relay session end ordering (src/tunnel/relay.rs lines 235..257)

After spawning the two pump tasks the main task awaits
`tokio::select!` over the two `JoinHandle`s — it resumes as soon as the
FIRST pump task finishes (the other handle is dropped, which detaches the
task; it is not awaited).  It then runs, in order:
`local_tasks_stopper.set()`, `global_stats.sub_concurrent_connection()`,
`self.notify_end()`.  A trace records the two pump-exit events and the
three main-task events. -/

/-- Events of the end-of-relay phase: a pump task exiting its loop, the
local stopper being set, the concurrent-counter decrement, and the
end-of-session notification. -/
inductive RelayEv where
  | pumpExit (i : Fin 2)
  | stopSet
  | decConc
  | notifyEnd
deriving DecidableEq

/-- Position of the (unique) occurrence of an event in a trace. -/
def evIdx (tr : List RelayEv) (e : RelayEv) : Nat := tr.indexOf e

/-- The interleavings the source admits for the end-of-relay phase:
each of the five events happens exactly once; the main task runs
`set` then `sub_concurrent_connection` then `notify_end` in program order
(relay.rs lines 245, 248, 256); and the `select!` over the join handles
(lines 236..243) resumes only after SOME pump task has exited, so the set
comes after at least one pump exit.  Nothing in the source makes the main
task wait for the second pump: its join handle is dropped by `select!`. -/
def ValidRelayTrace (tr : List RelayEv) : Prop :=
  tr.count (RelayEv.pumpExit 0) = 1 ∧
  tr.count (RelayEv.pumpExit 1) = 1 ∧
  tr.count RelayEv.stopSet = 1 ∧
  tr.count RelayEv.decConc = 1 ∧
  tr.count RelayEv.notifyEnd = 1 ∧
  evIdx tr RelayEv.stopSet < evIdx tr RelayEv.decConc ∧
  evIdx tr RelayEv.decConc < evIdx tr RelayEv.notifyEnd ∧
  (evIdx tr (RelayEv.pumpExit 0) < evIdx tr RelayEv.stopSet ∨
    evIdx tr (RelayEv.pumpExit 1) < evIdx tr RelayEv.stopSet)

instance (tr : List RelayEv) : Decidable (ValidRelayTrace tr) := by
  unfold ValidRelayTrace
  infer_instance

/-! ## Event / StopSignal (src/tunnel/event.rs)

The shared state is `{ value: bool, wakers: HashMap<u64, Waker> }` behind a
mutex.  `set` (lines 40..66): under the lock, if `value` is already true it
returns `Ok(())` immediately; otherwise it flips `value`, drains the waker
map, and wakes each drained waker after releasing the lock.  `poll`
(lines 94..113): under the lock, if `value` is true it is `Ready`;
otherwise it inserts the clone's waker keyed by its id and is `Pending`.
Wakers are modelled as opaque tokens; the map as an assoc list with
key-replacing insert (HashMap semantics); the lock is modelled as always
acquired un-poisoned (no panic occurs while it is held in the source). -/

/-- Embedding of `struct State` (event.rs lines 15..18); `wakers` maps a
clone id to its waker token. -/
structure EventState where
  value : Bool
  wakers : List (Nat × Nat)
deriving DecidableEq

/-- Key-replacing insert, the `HashMap::insert` of event.rs line 109. -/
def insertWaker (id w : Nat) : List (Nat × Nat) → List (Nat × Nat)
  | [] => [(id, w)]
  | (k, v) :: rest =>
    if k = id then (id, w) :: rest else (k, v) :: insertWaker id w rest

/-- Embedding of `Event::set` (event.rs lines 40..66): returns the new
state and the list of waker tokens woken (each drained waker exactly
once). -/
def Event.set (s : EventState) : EventState × List Nat :=
  if s.value then (s, [])
  else ({ value := true, wakers := [] }, s.wakers.map Prod.snd)

/-- Embedding of `poll` from `impl Future for Event` (event.rs lines
94..113): returns the new state and `true` for `Poll::Ready`. -/
def Event.poll (s : EventState) (id w : Nat) : EventState × Bool :=
  if s.value then (s, true)
  else ({ s with wakers := insertWaker id w s.wakers }, false)

/-- N successive calls of `Event.set` on a state, collecting every waker
woken across the calls. -/
def Event.setMany : Nat → EventState → EventState × List Nat
  | 0, s => (s, [])
  | n + 1, s =>
    let r := Event.set s
    let r2 := Event.setMany n r.fst
    (r2.fst, r.snd ++ r2.snd)

/-! ## Helper lemmas -/

theorem isAsciiAlnum_lt (b : Nat) (h : isAsciiAlnum b = true) : b < 0x80 := by
  unfold isAsciiAlnum at h
  simp only [Bool.or_eq_true, Bool.and_eq_true, decide_eq_true_eq] at h
  omega

/-- Unfolding equation of `utf8Decode` on a cons cell (the generated
equation lemmas are too large for rewriting, so it is proved by exhausting
the nested patterns). -/
theorem utf8Decode_cons_body (b : Nat) (rest : List Nat) :
    utf8Decode (b :: rest) =
      (if b < 0x80 then
        (utf8Decode rest).map (fun cs => b :: cs)
      else if b < 0xC2 then
        none
      else if b < 0xE0 then
        match rest with
        | b1 :: rest2 =>
          if isCont b1 then
            (utf8Decode rest2).map (fun cs => ((b - 0xC0) * 0x40 + (b1 - 0x80)) :: cs)
          else none
        | [] => none
      else if b < 0xF0 then
        match rest with
        | b1 :: b2 :: rest2 =>
          if (if b = 0xE0 then decide (0xA0 ≤ b1) && decide (b1 < 0xC0)
              else if b = 0xED then decide (0x80 ≤ b1) && decide (b1 < 0xA0)
              else isCont b1) && isCont b2 then
            (utf8Decode rest2).map
              (fun cs => ((b - 0xE0) * 0x1000 + (b1 - 0x80) * 0x40 + (b2 - 0x80)) :: cs)
          else none
        | _ => none
      else if b < 0xF5 then
        match rest with
        | b1 :: b2 :: b3 :: rest2 =>
          if (if b = 0xF0 then decide (0x90 ≤ b1) && decide (b1 < 0xC0)
              else if b = 0xF4 then decide (0x80 ≤ b1) && decide (b1 < 0x90)
              else isCont b1) && isCont b2 && isCont b3 then
            (utf8Decode rest2).map
              (fun cs =>
                ((b - 0xF0) * 0x40000 + (b1 - 0x80) * 0x1000 +
                  (b2 - 0x80) * 0x40 + (b3 - 0x80)) :: cs)
          else none
        | _ => none
      else none) := by
  cases rest with
  | nil => rfl
  | cons b1 r1 =>
    cases r1 with
    | nil => rfl
    | cons b2 r2 => cases r2 <;> rfl

theorem utf8Decode_cons_ascii (b : Nat) (rest : List Nat) (hb : b < 0x80) :
    utf8Decode (b :: rest) = (utf8Decode rest).map (fun cs => b :: cs) := by
  rw [utf8Decode_cons_body, if_pos hb]

theorem utf8Decode_ascii (l : List Nat) (h : ∀ b ∈ l, b < 0x80) :
    utf8Decode l = some l := by
  induction l with
  | nil => rfl
  | cons b rest ih =>
    have hb : b < 0x80 := h b (List.mem_cons_self b rest)
    have hr := ih (fun x hx => h x (List.mem_cons_of_mem b hx))
    rw [utf8Decode_cons_ascii b rest hb, hr]
    rfl

theorem isCharBoundary_append (tag rest : List Nat)
    (htag : tag.length = COMMAND_LENGTH) :
    isCharBoundary (tag ++ rest) COMMAND_LENGTH = headBoundary rest := by
  have htag4 : tag.length = 4 := htag
  cases rest with
  | nil => simp [isCharBoundary, COMMAND_LENGTH, htag4, headBoundary]
  | cons b rest2 =>
    have hne2 : ¬ ((4 : Nat) = (tag ++ b :: rest2).length) := by
      rw [List.length_append, htag4]
      simp
    have hget : (tag ++ b :: rest2)[4]? = some b := by
      rw [List.getElem?_append_right (by omega)]
      simp [htag4]
    unfold isCharBoundary
    rw [show COMMAND_LENGTH = 4 from rfl,
      if_neg (by omega : ¬ ((4 : Nat) = 0)), if_neg hne2, hget]
    rfl

theorem from_str_append (tag rest : List Nat) (htag : tag.length = COMMAND_LENGTH) :
    from_str (tag ++ rest) =
      if isCharBoundary (tag ++ rest) COMMAND_LENGTH then parseAfterTag tag rest
      else none := by
  unfold from_str
  have hnotlt : ¬ ((tag ++ rest).length < COMMAND_LENGTH) := by
    rw [List.length_append, htag]
    simp [COMMAND_LENGTH]
  rw [if_neg hnotlt]
  have htake : (tag ++ rest).take COMMAND_LENGTH = tag := by
    rw [← htag, List.take_left]
  have hdrop : (tag ++ rest).drop COMMAND_LENGTH = rest := by
    rw [← htag, List.drop_left]
  rw [htake, hdrop]
  cases hcb : isCharBoundary (tag ++ rest) COMMAND_LENGTH <;> simp [hcb]

theorem headBoundary_of_ascii (rest : List Nat) (h : ∀ b ∈ rest, b < 0x80) :
    headBoundary rest = true := by
  cases rest with
  | nil => rfl
  | cons b rest2 =>
    have hb : b < 0x80 := h b (List.mem_cons_self b rest2)
    simp [headBoundary, hb]

/-- Reduction of `from_str` on a well-formed tag followed by an ASCII
payload. -/
theorem from_str_tag_ascii (tag rest : List Nat) (htag : tag.length = COMMAND_LENGTH)
    (hrest : ∀ b ∈ rest, b < 0x80) :
    from_str (tag ++ rest) = parseAfterTag tag rest := by
  rw [from_str_append tag rest htag, isCharBoundary_append tag rest htag,
    headBoundary_of_ascii rest hrest]
  simp

theorem append_ascii (l1 l2 : List Nat) (h1 : ∀ b ∈ l1, b < 0x80)
    (h2 : ∀ b ∈ l2, b < 0x80) : ∀ b ∈ l1 ++ l2, b < 0x80 := by
  intro b hb
  rcases List.mem_append.mp hb with h | h
  · exact h1 b h
  · exact h2 b h

theorem parseAfterTag_isSome (tag rest : List Nat) :
    (parseAfterTag tag rest).isSome := by
  unfold parseAfterTag
  repeat' split
  all_goals rfl

theorem parse_open_ok (t : List Nat) (hlen : t.length = TICKET_LENGTH)
    (halnum : ∀ b ∈ t, isAsciiAlnum b = true) :
    from_str (COMMAND_OPEN ++ t) = some (Except.ok (Command.Open t)) := by
  have hascii : ∀ b ∈ t, b < 0x80 := fun b hb => isAsciiAlnum_lt b (halnum b hb)
  rw [from_str_tag_ascii COMMAND_OPEN t (by rfl) hascii]
  unfold parseAfterTag
  rw [if_pos rfl, if_pos hlen, utf8Decode_ascii t hascii]
  simp [List.all_eq_true.mpr halnum]

theorem parse_open_badlen (t : List Nat) (hlen : t.length ≠ TICKET_LENGTH)
    (hascii : ∀ b ∈ t, b < 0x80) :
    from_str (COMMAND_OPEN ++ t) = some (Except.error "Invalid ticket length") := by
  rw [from_str_tag_ascii COMMAND_OPEN t (by rfl) hascii]
  unfold parseAfterTag
  rw [if_pos rfl, if_neg hlen]

theorem parse_open_nonalnum (t : List Nat) (hlen : t.length = TICKET_LENGTH)
    (hascii : ∀ b ∈ t, b < 0x80) (hbad : t.all isAsciiAlnum = false) :
    from_str (COMMAND_OPEN ++ t) =
      some (Except.error "Invalid ticket, not alphanumeric") := by
  rw [from_str_tag_ascii COMMAND_OPEN t (by rfl) hascii]
  unfold parseAfterTag
  rw [if_pos rfl, if_pos hlen, utf8Decode_ascii t hascii]
  simp [hbad]

theorem parse_stat_ok (s : List Nat) (hlen : s.length = SECRET_LENGTH)
    (halnum : ∀ b ∈ s, isAsciiAlnum b = true) :
    from_str (COMMAND_STATS ++ s) = some (Except.ok (Command.Stats s)) := by
  have hascii : ∀ b ∈ s, b < 0x80 := fun b hb => isAsciiAlnum_lt b (halnum b hb)
  rw [from_str_tag_ascii COMMAND_STATS s (by rfl) hascii]
  unfold parseAfterTag
  rw [if_neg (by decide : ¬ (COMMAND_STATS = COMMAND_OPEN)),
    if_neg (by decide : ¬ (COMMAND_STATS = COMMAND_TEST)),
    if_pos (Or.inl rfl), if_pos hlen, utf8Decode_ascii s hascii]
  simp [List.all_eq_true.mpr halnum]

theorem parse_stat_badlen (s : List Nat) (hlen : s.length ≠ SECRET_LENGTH)
    (hascii : ∀ b ∈ s, b < 0x80) :
    from_str (COMMAND_STATS ++ s) = some (Except.error "Invalid secret length") := by
  rw [from_str_tag_ascii COMMAND_STATS s (by rfl) hascii]
  unfold parseAfterTag
  rw [if_neg (by decide : ¬ (COMMAND_STATS = COMMAND_OPEN)),
    if_neg (by decide : ¬ (COMMAND_STATS = COMMAND_TEST)),
    if_pos (Or.inl rfl), if_neg hlen]

theorem from_str_info_eq_stat (rest : List Nat) :
    from_str (COMMAND_INFO ++ rest) = from_str (COMMAND_STATS ++ rest) := by
  have hpat : parseAfterTag COMMAND_INFO rest = parseAfterTag COMMAND_STATS rest := by
    unfold parseAfterTag
    rw [if_neg (by decide : ¬ (COMMAND_INFO = COMMAND_OPEN)),
      if_neg (by decide : ¬ (COMMAND_STATS = COMMAND_OPEN)),
      if_neg (by decide : ¬ (COMMAND_INFO = COMMAND_TEST)),
      if_neg (by decide : ¬ (COMMAND_STATS = COMMAND_TEST)),
      if_pos (Or.inr rfl), if_pos (Or.inl rfl)]
  rw [from_str_append COMMAND_INFO rest (by rfl),
    from_str_append COMMAND_STATS rest (by rfl),
    isCharBoundary_append COMMAND_INFO rest (by rfl),
    isCharBoundary_append COMMAND_STATS rest (by rfl), hpat]

theorem parse_unknown_tag (tag : List Nat) (htag : tag.length = COMMAND_LENGTH)
    (h1 : tag ≠ COMMAND_OPEN) (h2 : tag ≠ COMMAND_TEST)
    (h3 : tag ≠ COMMAND_STATS) (h4 : tag ≠ COMMAND_INFO) :
    from_str tag = some (Except.ok Command.Unknown) := by
  have h0 : from_str (tag ++ []) = parseAfterTag tag [] :=
    from_str_tag_ascii tag [] htag (by intro b hb; cases hb)
  rw [List.append_nil] at h0
  rw [h0]
  unfold parseAfterTag
  rw [if_neg h1, if_neg h2, if_neg (by
    intro hor
    cases hor with
    | inl h => exact h3 h
    | inr h => exact h4 h)]

/-! ## Claim C1 — relay pump byte fidelity (code bug)

The pump's `read_buf` appends the freshly read chunk at the end of the
never-cleared `vec![0; 1024]`, yet `write_all(&buf[..n])` sends the FIRST
`n` bytes of the vector — zeroes, not the chunk.  The repository's own
test `tests/test_server_to_remote.rs` asserts that 128 bytes of `0x78`
come back verbatim, which this data path cannot deliver. -/

/-- C1 (code bug): a pump iteration that reads one chunk of 128 `0x78`
bytes writes 128 zero bytes to the destination (while still counting 128
bytes), so the relayed stream does NOT equal the source stream. -/
theorem C1_pump_forwards_zeroes :
    (pumpRun [List.replicate 128 0x78]).written = [List.replicate 128 0] ∧
    (pumpRun [List.replicate 128 0x78]).counted = 128 ∧
    List.replicate 128 (0 : Nat) ≠ List.replicate 128 0x78 :=
  ⟨by rfl, by rfl, by decide⟩

/-! ## Claim C2 — forbidden stats still disclose the counters (code bug)

The `Command::Stats` branch writes `FORBIDDEN` when the check fails but has
no early return: it falls through and writes the stats line anyway
(server.rs lines 190..209). -/

/-- C2 (code bug): with a non-empty allow list and a peer ip not in it,
the write sequence is `FORBIDDEN` FOLLOWED BY the stats line — the counter
values are disclosed on the forbidden path. -/
theorem C2_forbidden_still_writes_stats :
    processStats ["192.0.2.1"] [0x61] "198.51.100.7" [0x61]
        { concurrent := 749, total := 947, sent := 13804, recv := 96432 } =
      [RESPONSE_FORBIDDEN, "749;947;13804;96432"] ∧
    statsLine { concurrent := 749, total := 947, sent := 13804, recv := 96432 } ∈
      processStats ["192.0.2.1"] [0x61] "198.51.100.7" [0x61]
        { concurrent := 749, total := 947, sent := 13804, recv := 96432 } :=
  ⟨by rfl, by decide⟩

/-! ## Claim C3 — empty allow list -/

/-- C3 counterexample: with `allow = []` and a supplied secret different
from the configured one, the server does NOT answer `FORBIDDEN` — it writes
the stats line, so the secret check does not apply. -/
theorem C3_empty_allow_cex :
    processStats [] [0x61] "192.0.2.1" [0x62] { concurrent := 1, total := 2, sent := 3, recv := 4 } =
      [statsLine { concurrent := 1, total := 2, sent := 3, recv := 4 }] ∧
    [(0x62 : Nat)] ≠ [0x61] ∧
    RESPONSE_FORBIDDEN ∉
      processStats [] [0x61] "192.0.2.1" [0x62] { concurrent := 1, total := 2, sent := 3, recv := 4 } :=
  ⟨by rfl, by decide, by decide⟩

/-- C3 amended: when `config.allow` is empty the whole guard
`!allow.is_empty() && (...)` is false, so BOTH the allow-list check and the
secret check are skipped: whatever the supplied secret, no `FORBIDDEN` is
written and the stats line is always written. -/
theorem C3_empty_allow_skips_all_checks (cfgSecret : List Nat) (ip : String)
    (secret : List Nat) (st : StatsSnapshot) :
    processStats [] cfgSecret ip secret st = [statsLine st] := by
  simp [processStats]

/-! ## Claim C5 — `#` directives still attempt a backend connect (code bug)

`execute_command` returns `None` for `#close` and for unknown directives
alike, so the `if let Some(response)` in `run` (relay.rs lines 84..93)
never fires: the session falls through to `TcpStream::connect` on the
directive string itself, contradicting the source's own comment
"it's a command, process it and return". -/

/-- C5 (code bug): for host `#close` (and any other `#` directive) the
relay proceeds to a backend TCP connect on `"#close:9999"` instead of
closing the session. -/
theorem C5_hash_host_still_connects :
    execute_command "#close" = none ∧
    relayDispatch "#close" 9999 = RelayAction.connectBackend "#close:9999" ∧
    relayDispatch "#reboot" 443 = RelayAction.connectBackend "#reboot:443" :=
  ⟨by decide, by decide, by decide⟩

/-! ## Claim C6 — handshake error responses -/

/-- C6 counterexample: a non-timeout read error during the handshake is
answered with `TIMEOUT`, not `ERROR_HANDSHAKE` — the code tests
`handshake.is_err()` first and writes the timeout token for EVERY read
error (server.rs lines 94..105). -/
theorem C6_read_error_answered_timeout_cex :
    handshakeStep ReadOutcome.readErr = HandshakeResult.respond RESPONSE_ERROR_TIMEOUT ∧
    RESPONSE_ERROR_TIMEOUT ≠ RESPONSE_ERROR_HANDSHAKE :=
  ⟨rfl, by decide⟩

/-- C6 amended: deadline expiry AND any other read error are both answered
with `TIMEOUT`; `ERROR_HANDSHAKE` is written exactly when the read
succeeded but the bytes differ from `HANDSHAKE_V1`; a successful read of
the magic proceeds to the TLS upgrade. -/
theorem C6_handshake_responses :
    handshakeStep ReadOutcome.timedOut = HandshakeResult.respond RESPONSE_ERROR_TIMEOUT ∧
    handshakeStep ReadOutcome.readErr = HandshakeResult.respond RESPONSE_ERROR_TIMEOUT ∧
    (∀ bytes, bytes ≠ HANDSHAKE_V1 →
      handshakeStep (ReadOutcome.ok bytes) = HandshakeResult.respond RESPONSE_ERROR_HANDSHAKE) ∧
    handshakeStep (ReadOutcome.ok HANDSHAKE_V1) = HandshakeResult.proceed := by
  refine ⟨rfl, rfl, ?_, by simp [handshakeStep]⟩
  intro bytes h
  simp [handshakeStep, h]

/-- Witness for C6: the empty read differs from the magic and is answered
with `ERROR_HANDSHAKE`. -/
theorem C6_handshake_responses_witness :
    handshakeStep (ReadOutcome.ok []) = HandshakeResult.respond RESPONSE_ERROR_HANDSHAKE :=
  C6_handshake_responses.2.2.1 [] (by decide)

/-! ## Claim C7 — the handshake magic -/

/-- C7 counterexample: `HANDSHAKE_V1` has 7 bytes, not 8, and its value is
not `5A 4D 47 42 A5 01 00 00`. -/
theorem C7_handshake_len_cex :
    HANDSHAKE_V1.length = 7 ∧ (7 : Nat) ≠ 8 ∧
    HANDSHAKE_V1 ≠ [0x5A, 0x4D, 0x47, 0x42, 0xA5, 0x01, 0x00, 0x00] :=
  ⟨rfl, by decide, by decide⟩

/-- C7 amended: the magic is exactly the 7 bytes `5A 4D 47 42 A5 01 00`;
the server's handshake buffer is `HANDSHAKE_V1.len() = 7` bytes (filled by
`read_exact`), and the session proceeds precisely when the bytes read equal
the magic. -/
theorem C7_handshake_magic :
    HANDSHAKE_V1 = [0x5A, 0x4D, 0x47, 0x42, 0xA5, 0x01, 0x00] ∧
    handshake_buf_len = 7 ∧
    (∀ bytes, handshakeStep (ReadOutcome.ok bytes) = HandshakeResult.proceed ↔
      bytes = HANDSHAKE_V1) := by
  refine ⟨rfl, rfl, fun bytes => ⟨fun h => ?_, fun h => ?_⟩⟩
  · by_contra hne
    simp [handshakeStep, hne] at h
  · subst h
    simp [handshakeStep]

/-! ## Claim C8 — totality of `Command::from_bytes` -/

/-- C8 counterexample: `from_bytes` panics (`none`) on the non-UTF-8 input
`[0xFF]` — the `String::from_utf8(...).unwrap()` of types.rs line 63 — and
also on the valid-UTF-8 bytes of `"STA€"`, where the multi-byte `€`
straddles the 4-byte tag boundary and the slice `&s[..4]` panics.  It is
therefore not a total function. -/
theorem C8_from_bytes_panics_cex :
    from_bytes [0xFF] = none ∧
    utf8Decode [0x53, 0x54, 0x41, 0xE2, 0x82, 0xAC] = some [83, 84, 65, 8364] ∧
    from_bytes [0x53, 0x54, 0x41, 0xE2, 0x82, 0xAC] = none :=
  ⟨rfl, rfl, rfl⟩

/-- C8 amended: `from_bytes` returns a `Command` or a parse error — never
panics — exactly on inputs that are valid UTF-8 AND whose byte 4 (when the
input has more than 4 bytes) falls on a character boundary; it panics on
invalid UTF-8; and a correctly tagged `OPEN` frame whose 48-byte ASCII
payload contains a non-alphanumeric byte yields the parse error the caller
maps to `CommandError`. -/
theorem C8_from_bytes_totality :
    (∀ bytes : List Nat, (utf8Decode bytes).isSome →
      (bytes.length < COMMAND_LENGTH ∨ isCharBoundary bytes COMMAND_LENGTH = true) →
      (from_bytes bytes).isSome) ∧
    (∀ bytes : List Nat, utf8Decode bytes = none → from_bytes bytes = none) ∧
    (∀ t : List Nat, t.length = TICKET_LENGTH → (∀ b ∈ t, b < 0x80) →
      t.all isAsciiAlnum = false →
      from_bytes (COMMAND_OPEN ++ t) =
        some (Except.error "Invalid ticket, not alphanumeric")) := by
  refine ⟨fun bytes hdec hb => ?_, fun bytes hdec => ?_, fun t hlen hascii hbad => ?_⟩
  · unfold from_bytes
    cases hd : utf8Decode bytes with
    | none => rw [hd] at hdec; cases hdec
    | some cps =>
      unfold from_str
      by_cases hlen : bytes.length < COMMAND_LENGTH
      · simp [hlen]
      · have hbd : isCharBoundary bytes COMMAND_LENGTH = true := by
          cases hb with
          | inl h => exact absurd h hlen
          | inr h => exact h
        rw [if_neg hlen, hbd]
        simpa using parseAfterTag_isSome _ _
  · unfold from_bytes
    rw [hdec]
  · have hall : ∀ b ∈ COMMAND_OPEN ++ t, b < 0x80 :=
      append_ascii COMMAND_OPEN t (by decide) hascii
    unfold from_bytes
    rw [utf8Decode_ascii (COMMAND_OPEN ++ t) hall]
    exact parse_open_nonalnum t hlen hascii hbad

/-- Witness for C8: the plain `TEST` frame parses; `[0xFF]` panics; the
frame `OPEN` + 47 digits + `.` is the not-alphanumeric parse error. -/
theorem C8_from_bytes_totality_witness :
    (from_bytes COMMAND_TEST).isSome ∧
    from_bytes [0xFF] = none ∧
    from_bytes (COMMAND_OPEN ++ (List.replicate 47 0x30 ++ [0x2E])) =
      some (Except.error "Invalid ticket, not alphanumeric") :=
  ⟨C8_from_bytes_totality.1 COMMAND_TEST (by rfl) (Or.inr (by rfl)),
    C8_from_bytes_totality.2.1 [0xFF] rfl,
    C8_from_bytes_totality.2.2 (List.replicate 47 0x30 ++ [0x2E]) (by decide)
      (by decide) (by decide)⟩

/-! ## Claim C9 — the accepted command shapes -/

/-- C9: `OPEN` + 48 ASCII-alphanumerics parses to `Open`; 47- and 49-char
alphanumeric tickets are length errors; a 48-byte ASCII ticket with a
non-alphanumeric byte is an alphanumeric error; `STAT` + 64
ASCII-alphanumerics parses to `Stats`; 63- and 65-char secrets are length
errors; `INFO` is parsed identically to `STAT` for every payload; `TEST`
parses to `Test`; and every other 4-byte tag parses to `Unknown`. -/
theorem C9_command_parsing :
    (∀ t, t.length = TICKET_LENGTH → (∀ b ∈ t, isAsciiAlnum b = true) →
      from_str (COMMAND_OPEN ++ t) = some (Except.ok (Command.Open t))) ∧
    (∀ t, t.length = 47 → (∀ b ∈ t, isAsciiAlnum b = true) →
      from_str (COMMAND_OPEN ++ t) = some (Except.error "Invalid ticket length")) ∧
    (∀ t, t.length = 49 → (∀ b ∈ t, isAsciiAlnum b = true) →
      from_str (COMMAND_OPEN ++ t) = some (Except.error "Invalid ticket length")) ∧
    (∀ t, t.length = TICKET_LENGTH → (∀ b ∈ t, b < 0x80) →
      t.all isAsciiAlnum = false →
      from_str (COMMAND_OPEN ++ t) =
        some (Except.error "Invalid ticket, not alphanumeric")) ∧
    (∀ s, s.length = SECRET_LENGTH → (∀ b ∈ s, isAsciiAlnum b = true) →
      from_str (COMMAND_STATS ++ s) = some (Except.ok (Command.Stats s))) ∧
    (∀ s, s.length = 63 → (∀ b ∈ s, isAsciiAlnum b = true) →
      from_str (COMMAND_STATS ++ s) = some (Except.error "Invalid secret length")) ∧
    (∀ s, s.length = 65 → (∀ b ∈ s, isAsciiAlnum b = true) →
      from_str (COMMAND_STATS ++ s) = some (Except.error "Invalid secret length")) ∧
    (∀ rest, from_str (COMMAND_INFO ++ rest) = from_str (COMMAND_STATS ++ rest)) ∧
    from_str COMMAND_TEST = some (Except.ok Command.Test) ∧
    (∀ tag, tag.length = COMMAND_LENGTH → tag ≠ COMMAND_OPEN →
      tag ≠ COMMAND_TEST → tag ≠ COMMAND_STATS → tag ≠ COMMAND_INFO →
      from_str tag = some (Except.ok Command.Unknown)) := by
  refine ⟨parse_open_ok, fun t hlen halnum => ?_, fun t hlen halnum => ?_,
    parse_open_nonalnum, parse_stat_ok, fun s hlen halnum => ?_,
    fun s hlen halnum => ?_, from_str_info_eq_stat, rfl, parse_unknown_tag⟩
  · exact parse_open_badlen t (by rw [hlen]; decide)
      (fun b hb => isAsciiAlnum_lt b (halnum b hb))
  · exact parse_open_badlen t (by rw [hlen]; decide)
      (fun b hb => isAsciiAlnum_lt b (halnum b hb))
  · exact parse_stat_badlen s (by rw [hlen]; decide)
      (fun b hb => isAsciiAlnum_lt b (halnum b hb))
  · exact parse_stat_badlen s (by rw [hlen]; decide)
      (fun b hb => isAsciiAlnum_lt b (halnum b hb))

/-- Witness for C9 at concrete frames: 48 digits accepted, 47 and 49
digits rejected, a dot in the ticket rejected, 64 letters accepted for
`STAT`, 63 and 65 rejected, `INFO` equal to `STAT` on a sample payload,
`TEST` accepted, and the tag `ABCD` unknown. -/
theorem C9_command_parsing_witness :
    from_str (COMMAND_OPEN ++ List.replicate 48 0x30) =
      some (Except.ok (Command.Open (List.replicate 48 0x30))) ∧
    from_str (COMMAND_OPEN ++ List.replicate 47 0x30) =
      some (Except.error "Invalid ticket length") ∧
    from_str (COMMAND_OPEN ++ List.replicate 49 0x30) =
      some (Except.error "Invalid ticket length") ∧
    from_str (COMMAND_OPEN ++ (List.replicate 47 0x30 ++ [0x2E])) =
      some (Except.error "Invalid ticket, not alphanumeric") ∧
    from_str (COMMAND_STATS ++ List.replicate 64 0x61) =
      some (Except.ok (Command.Stats (List.replicate 64 0x61))) ∧
    from_str (COMMAND_STATS ++ List.replicate 63 0x61) =
      some (Except.error "Invalid secret length") ∧
    from_str (COMMAND_STATS ++ List.replicate 65 0x61) =
      some (Except.error "Invalid secret length") ∧
    from_str (COMMAND_INFO ++ List.replicate 64 0x61) =
      from_str (COMMAND_STATS ++ List.replicate 64 0x61) ∧
    from_str [0x41, 0x42, 0x43, 0x44] = some (Except.ok Command.Unknown) :=
  ⟨C9_command_parsing.1 (List.replicate 48 0x30) (by decide) (by decide),
    C9_command_parsing.2.1 (List.replicate 47 0x30) (by decide) (by decide),
    C9_command_parsing.2.2.1 (List.replicate 49 0x30) (by decide) (by decide),
    C9_command_parsing.2.2.2.1 (List.replicate 47 0x30 ++ [0x2E]) (by decide)
      (by decide) (by decide),
    C9_command_parsing.2.2.2.2.1 (List.replicate 64 0x61) (by decide) (by decide),
    C9_command_parsing.2.2.2.2.2.1 (List.replicate 63 0x61) (by decide) (by decide),
    C9_command_parsing.2.2.2.2.2.2.1 (List.replicate 65 0x61) (by decide) (by decide),
    C9_command_parsing.2.2.2.2.2.2.2.1 (List.replicate 64 0x61),
    C9_command_parsing.2.2.2.2.2.2.2.2.2 [0x41, 0x42, 0x43, 0x44] (by decide)
      (by decide) (by decide) (by decide) (by decide)⟩

/-! ## Claim C4 — ordering of the session-end events -/

/-- C4 counterexample: the trace in which the second pump task exits only
AFTER the concurrent-counter decrement (and even after the notification) is
a valid interleaving of the source — `run` resumes from the `select!` over
the join handles as soon as the first pump finishes and never awaits the
second.  So the decrement is not guaranteed to happen after BOTH pumps have
exited. -/
theorem C4_dec_before_second_pump_exit_cex :
    ValidRelayTrace
      [RelayEv.pumpExit 0, RelayEv.stopSet, RelayEv.decConc,
        RelayEv.notifyEnd, RelayEv.pumpExit 1] ∧
    ¬ (evIdx
        [RelayEv.pumpExit 0, RelayEv.stopSet, RelayEv.decConc,
          RelayEv.notifyEnd, RelayEv.pumpExit 1] (RelayEv.pumpExit 1) <
       evIdx
        [RelayEv.pumpExit 0, RelayEv.stopSet, RelayEv.decConc,
          RelayEv.notifyEnd, RelayEv.pumpExit 1] RelayEv.decConc) :=
  ⟨by decide, by decide⟩

/-- C4 amended: in every valid interleaving of a session that reaches the
pump-start point, `dec_concurrent` runs exactly once, after at least one
pump task has exited (and after the local stop signal is set), and the
end-of-session notification comes after the decrement; the second pump task
need not have exited by then. -/
theorem C4_dec_after_first_pump_exit (tr : List RelayEv) (h : ValidRelayTrace tr) :
    tr.count RelayEv.decConc = 1 ∧
    (∃ i, evIdx tr (RelayEv.pumpExit i) < evIdx tr RelayEv.decConc) ∧
    evIdx tr RelayEv.decConc < evIdx tr RelayEv.notifyEnd := by
  obtain ⟨-, -, -, h3, -, h5, h6, h7⟩ := h
  refine ⟨h3, ?_, h6⟩
  cases h7 with
  | inl hlt => exact ⟨0, lt_trans hlt h5⟩
  | inr hlt => exact ⟨1, lt_trans hlt h5⟩

/-- Witness for C4: the fully sequential trace where both pumps exit
before the stopper is set. -/
theorem C4_dec_after_first_pump_exit_witness :
    List.count RelayEv.decConc
      [RelayEv.pumpExit 0, RelayEv.pumpExit 1, RelayEv.stopSet,
        RelayEv.decConc, RelayEv.notifyEnd] = 1 ∧
    (∃ i, evIdx
        [RelayEv.pumpExit 0, RelayEv.pumpExit 1, RelayEv.stopSet,
          RelayEv.decConc, RelayEv.notifyEnd] (RelayEv.pumpExit i) <
      evIdx
        [RelayEv.pumpExit 0, RelayEv.pumpExit 1, RelayEv.stopSet,
          RelayEv.decConc, RelayEv.notifyEnd] RelayEv.decConc) ∧
    evIdx
        [RelayEv.pumpExit 0, RelayEv.pumpExit 1, RelayEv.stopSet,
          RelayEv.decConc, RelayEv.notifyEnd] RelayEv.decConc <
      evIdx
        [RelayEv.pumpExit 0, RelayEv.pumpExit 1, RelayEv.stopSet,
          RelayEv.decConc, RelayEv.notifyEnd] RelayEv.notifyEnd :=
  C4_dec_after_first_pump_exit
    [RelayEv.pumpExit 0, RelayEv.pumpExit 1, RelayEv.stopSet,
      RelayEv.decConc, RelayEv.notifyEnd] (by decide)

/-! ## Claim C10 — StopSignal idempotence and level-triggered await -/

/-- Key step: a second `set` on the state produced by any `set` changes
nothing and wakes nobody. -/
theorem Event_set_set (s : EventState) :
    Event.set (Event.set s).fst = ((Event.set s).fst, []) := by
  by_cases hv : s.value
  · simp [Event.set, hv]
  · simp [Event.set, hv]

theorem Event_set_value (s : EventState) : (Event.set s).fst.value = true := by
  by_cases hv : s.value
  · simp [Event.set, hv]
  · simp [Event.set, hv]

theorem Event_setMany_of_value (n : Nat) (s : EventState) (h : s.value = true) :
    Event.setMany n s = (s, []) := by
  induction n with
  | zero => rfl
  | succ m ih =>
    unfold Event.setMany
    rw [show Event.set s = (s, []) from by simp [Event.set, h]]
    simp [ih]

/-- C10: the first `set` on an unset signal flips the flag and drains the
waker map, waking exactly the registered wakers (in map order); a `set` on
an already-set signal changes nothing and wakes nobody; `n + 1` calls have
exactly the same total effect (final state and woken wakers) as one call;
and polling an already-set signal completes immediately with the state
unchanged — no waker is registered. -/
theorem C10_event_set_idempotent :
    (∀ s : EventState, s.value = false →
      Event.set s = ({ value := true, wakers := [] }, s.wakers.map Prod.snd)) ∧
    (∀ s : EventState, s.value = true → Event.set s = (s, [])) ∧
    (∀ (s : EventState) (n : Nat), Event.setMany (n + 1) s = Event.setMany 1 s) ∧
    (∀ (s : EventState) (id w : Nat), s.value = true → Event.poll s id w = (s, true)) := by
  refine ⟨fun s hv => by simp [Event.set, hv], fun s hv => by simp [Event.set, hv],
    fun s n => ?_, fun s id w hv => by simp [Event.poll, hv]⟩
  have hfix := Event_setMany_of_value n (Event.set s).fst (Event_set_value s)
  simp [Event.setMany, hfix]

/-- Witness for C10 at concrete states: two registered wakers are woken
exactly once by the first call; repeated calls collapse to one; an
already-set signal is a no-op for `set` and immediately ready for
`poll`. -/
theorem C10_event_set_idempotent_witness :
    Event.set { value := false, wakers := [(0, 5), (1, 7)] } =
      ({ value := true, wakers := [] }, [5, 7]) ∧
    Event.set { value := true, wakers := [] } = ({ value := true, wakers := [] }, []) ∧
    Event.setMany 3 { value := false, wakers := [(0, 5)] } =
      Event.setMany 1 { value := false, wakers := [(0, 5)] } ∧
    Event.poll { value := true, wakers := [] } 3 9 =
      ({ value := true, wakers := [] }, true) :=
  ⟨C10_event_set_idempotent.1 _ rfl, C10_event_set_idempotent.2.1 _ rfl,
    C10_event_set_idempotent.2.2.1 _ 2, C10_event_set_idempotent.2.2.2 _ 3 9 rfl⟩

end UdsTunnel
